import Mathlib

/-!
Shallow embedding of the StockFlow inventory-management service
(`src/app.py`: Flask + SQLAlchemy + marshmallow) and proofs about its
product-creation, listing and seeding behaviour.

Modelling conventions:
* Python strings are lists of Unicode codepoints (`PyStr := List Nat`);
  `str.upper` / `str.strip` are embedded character-by-character.
* `uuid4` primary keys are abstracted as distinct naturals drawn from a
  fresh-id counter in the database state.
* `decimal.Decimal` money values with two places are an exact integer
  number of cents (`Int`); the marshmallow `fields.Decimal(places=2)`
  quantization (banker's rounding) is embedded on exact rationals.
* The commit of a transaction may be interrupted by the database driver
  (`IntegrityError` from a concurrent conflicting insert, or any other
  `SQLAlchemyError`); this nondeterminism is an explicit `CommitOutcome`
  parameter of the operations that commit.
* `datetime` columns (`created_at`, `updated_at`) and the timestamp of the
  health check are outside the model; no claim concerns them.
-/

namespace StockFlow

/-- Python strings as lists of Unicode codepoints. -/
abbrev PyStr := List Nat

/-- Codepoints of a Lean string literal, used for concrete test inputs. -/
def strCodes (s : String) : PyStr := s.data.map Char.toNat

/-- `str.upper` on one ASCII codepoint: Python uppercases `a`..`z`
(codepoints 97..122) by subtracting 32 and leaves other ASCII unchanged. -/
def pyUpperChar (c : Nat) : Nat := if 97 ≤ c ∧ c ≤ 122 then c - 32 else c

/-- Whitespace codepoints removed by Python `str.strip`
(space, tab, newline, carriage return, vertical tab, form feed). -/
def pyIsSpace (c : Nat) : Bool :=
  c == 32 || c == 9 || c == 10 || c == 13 || c == 11 || c == 12

/-- Python `str.upper` (ASCII fragment). -/
def pyUpper (s : PyStr) : PyStr := s.map pyUpperChar

/-- Python `str.strip`: drop whitespace from both ends. -/
def pyStrip (s : PyStr) : PyStr :=
  ((s.dropWhile pyIsSpace).reverse.dropWhile pyIsSpace).reverse

/-- `CreateProductSchema.normalize_sku` (`app.py` lines 144-148):
`data['sku'] = data['sku'].upper().strip()`. -/
def normalizeSku (s : PyStr) : PyStr := pyStrip (pyUpper s)

/-- The decimal number carried by the `price` field of the JSON payload,
exactly as `decimal.Decimal(str(value))` reads it: an integer mantissa
scaled by a power of ten, with value `mantissa / 10 ^ exponent`. -/
structure DecimalLit where
  mantissa : Int
  exponent : Nat
deriving Repr, DecidableEq

/-- Exact rational value of a submitted decimal. -/
def DecimalLit.val (p : DecimalLit) : Rat :=
  (p.mantissa : Rat) / (10 : Rat) ^ p.exponent

/-- Marshmallow `fields.Decimal(places=2)` quantization of the submitted
decimal to a whole number of cents, with `decimal.Decimal`'s default
`ROUND_HALF_EVEN` (banker's) rounding. -/
def quantizeHalfEven (p : DecimalLit) : Int :=
  if p.exponent ≤ 2 then
    p.mantissa * (10 : Int) ^ (2 - p.exponent)
  else
    let d : Int := (10 : Int) ^ (p.exponent - 2)
    let q : Int := p.mantissa.fdiv d
    let r : Int := p.mantissa - q * d
    if 2 * r < d then q
    else if d < 2 * r then q + 1
    else if q % 2 = 0 then q else q + 1

/-- Exact rational value of the Python float literal `0.01`: the binary64
nearest to 1/100 is 5764607523034235 / 2^59, slightly above 1/100. -/
def float001 : Rat := (5764607523034235 : Rat) / (576460752303423488 : Rat)

/-- The price check of `CreateProductSchema.price` (`app.py` lines 124-129):
`validate.Range(min=0.01)` rejects exactly when the deserialized `Decimal`
is below its `min`.  The `min` is the Python float literal `0.01`, whose
exact value is `5764607523034235 / 2^59` (see `float001`), and Python
compares `Decimal` against `float` exactly; the comparison
`float001 ≤ cents / 100` is written here cross-multiplied
(`5764607523034235 * 100 ≤ cents * 2^59`) so that it is plain integer
arithmetic.  The validator has no `max`. -/
def priceCheck (cents : Int) : Bool :=
  decide ((576460752303423500 : Int) ≤ cents * 576460752303423488)

/-! ### Database rows and state -/

/-- A row of the `products` table (`app.py` lines 32-44).  `price` is the
stored `Numeric(10, 2)` value in cents. -/
structure ProductRow where
  id : Nat
  name : PyStr
  sku : PyStr
  price : Int
  description : Option PyStr
deriving Repr, DecidableEq

/-- A row of the `warehouses` table (`app.py` lines 57-66). -/
structure WarehouseRow where
  id : Nat
  name : PyStr
  location : PyStr
deriving Repr, DecidableEq

/-- A row of the `inventory` table (`app.py` lines 76-94). -/
structure InventoryRow where
  id : Nat
  product_id : Nat
  warehouse_id : Nat
  quantity : Int
  reserved_quantity : Int
deriving Repr, DecidableEq

/-- `Inventory.available_quantity` (`app.py` lines 96-98). -/
def InventoryRow.available_quantity (inv : InventoryRow) : Int :=
  inv.quantity - inv.reserved_quantity

/-- The database state: the three tables plus a fresh-id counter
abstracting `uuid4` generation. -/
structure DBState where
  products : List ProductRow
  inventories : List InventoryRow
  warehouses : List WarehouseRow
  nextId : Nat
deriving Repr, DecidableEq

/-- A database with empty tables, as first created by `db.create_all()`. -/
def emptyState : DBState := ⟨[], [], [], 0⟩

/-- `Warehouse.query.get(id)`: primary-key lookup. -/
def findWarehouse (s : DBState) (wid : Nat) : Option WarehouseRow :=
  s.warehouses.find? (fun w => w.id == wid)

/-! ### Request payloads and validation -/

/-- The JSON payload of `POST /api/products`.  `price` is the exact value
of the submitted decimal number; `description` and `initial_quantity` are
`none` when the key is absent from the payload. -/
structure RawRequest where
  name : PyStr
  sku : PyStr
  price : DecimalLit
  description : Option PyStr
  warehouse_id : Nat
  initial_quantity : Option Int
deriving Repr, DecidableEq

/-- The output of a successful `CreateProductSchema().load(data)`:
every field validated and the SKU normalized by the `post_load` hook. -/
structure Validated where
  name : PyStr
  sku : PyStr
  price : Int
  description : Option PyStr
  warehouse_id : Nat
  initial_quantity : Int
deriving Repr, DecidableEq

/-- `CreateProductSchema().load` (`app.py` lines 113-148): field
validations (name `Length(1,255)`, sku `Length(1,100)`,
price `Decimal(places=2)` + `Range(min=0.01)`, description
`Length(max=1000)` optional, `initial_quantity` required `Int` with
`Range(min=0)`), then the `post_load` SKU normalization.  Returns `none`
exactly when a `ValidationError` is raised. -/
def validateReq (r : RawRequest) : Option Validated :=
  if (1 ≤ r.name.length && r.name.length ≤ 255)
      && (1 ≤ r.sku.length && r.sku.length ≤ 100)
      && priceCheck (quantizeHalfEven r.price)
      && (match r.description with
          | some d => d.length ≤ 1000
          | none => true)
      && (match r.initial_quantity with
          | some q => decide (0 ≤ q)
          | none => false) then
    some { name := r.name
           sku := normalizeSku r.sku
           price := quantizeHalfEven r.price
           description := r.description
           warehouse_id := r.warehouse_id
           initial_quantity := r.initial_quantity.getD 0 }
  else
    none

/-- The JSON payload of `POST /api/warehouses`
(`CreateWarehouseSchema`, `app.py` lines 150-160). -/
structure RawWarehouseRequest where
  name : PyStr
  location : PyStr
deriving Repr, DecidableEq

/-! ### Serialization -/

/-- How a price is represented in a serialized JSON body: either through
Python's `float(...)` (a binary floating-point conversion, which also
rounds the value to the nearest binary64 — the rounding itself is not
modelled, only the representation the code chose) or as an exact
decimal. -/
inductive SerializedPrice where
  | asFloat (cents : Int)
  | asDecimal (cents : Int)
deriving Repr, DecidableEq

/-- Whether a serialized price went through binary floating point. -/
def SerializedPrice.isFloatRepr : SerializedPrice → Bool
  | .asFloat _ => true
  | .asDecimal _ => false

/-- `Product.to_dict` (`app.py` lines 46-55): note line 51 serializes the
price as `float(self.price)`.  Timestamp fields are outside the model. -/
structure ProductDict where
  id : Nat
  name : PyStr
  sku : PyStr
  price : SerializedPrice
  description : Option PyStr
deriving Repr, DecidableEq

/-- `Product.to_dict` as a function on rows. -/
def product_to_dict (p : ProductRow) : ProductDict :=
  { id := p.id
    name := p.name
    sku := p.sku
    price := .asFloat p.price
    description := p.description }

/-- `Warehouse.to_dict` (`app.py` lines 68-74), timestamps omitted. -/
structure WarehouseDict where
  id : Nat
  name : PyStr
  location : PyStr
deriving Repr, DecidableEq

def warehouse_to_dict (w : WarehouseRow) : WarehouseDict :=
  { id := w.id, name := w.name, location := w.location }

/-- The inventory summary embedded in the 201 body of `create_product`
(`app.py` lines 248-251). -/
structure InvSummary where
  warehouse_id : Nat
  quantity : Int
deriving Repr, DecidableEq

/-- The response of `POST /api/products`, one constructor per exit path of
`create_product` (`app.py` lines 164-274). -/
inductive CreateProductResult where
  /-- 400: schema `ValidationError` (lines 197-202). -/
  | validationFailed
  /-- 404: warehouse not found (lines 206-210). -/
  | warehouseNotFound (warehouse_id : Nat)
  /-- 409: SKU pre-check found an existing product (lines 216-220). -/
  | duplicateSku (sku : PyStr)
  /-- 409: `IntegrityError` at commit, transaction rolled back
  (lines 254-260). -/
  | constraintViolation
  /-- 500: other `SQLAlchemyError`, transaction rolled back
  (lines 262-267). -/
  | storageFailure
  /-- 201: both rows committed (lines 245-252). -/
  | created (product : ProductDict) (inventory : InvSummary)
deriving Repr, DecidableEq

/-- HTTP status code of each `create_product` exit path. -/
def CreateProductResult.status : CreateProductResult → Nat
  | .validationFailed => 400
  | .warehouseNotFound _ => 404
  | .duplicateSku _ => 409
  | .constraintViolation => 409
  | .storageFailure => 500
  | .created _ _ => 201

/-- How the database driver resolves the `db.session.commit()` of a
request: success, a uniqueness/integrity violation raised at commit time
(e.g. by a concurrent insert of the same SKU), or any other database
error.  Which one occurs is outside this request's control, so it is a
parameter. -/
inductive CommitOutcome where
  | ok
  | integrityError
  | dbError
deriving Repr, DecidableEq

/-- The product row built by `create_product` (`app.py` lines 222-230);
its id comes from the fresh-id counter (`flush()` materializes the
`uuid4` default). -/
def newProductRow (s : DBState) (v : Validated) : ProductRow :=
  { id := s.nextId
    name := v.name
    sku := v.sku
    price := v.price
    description := v.description }

/-- The inventory row built by `create_product` (`app.py` lines 232-238);
`reserved_quantity` takes the column default 0. -/
def newInventoryRow (s : DBState) (v : Validated) : InventoryRow :=
  { id := s.nextId + 1
    product_id := s.nextId
    warehouse_id := v.warehouse_id
    quantity := v.initial_quantity
    reserved_quantity := 0 }

/-- The database state after `db.session.commit()` succeeds on both
inserts of `create_product` (`app.py` line 241). -/
def commitState (s : DBState) (v : Validated) : DBState :=
  { s with
    products := s.products ++ [newProductRow s v]
    inventories := s.inventories ++ [newInventoryRow s v]
    nextId := s.nextId + 2 }

/-- `create_product` (`app.py` lines 164-274): validate the payload,
look up the warehouse, pre-check SKU uniqueness, insert the product row
(id from `flush()`), insert the inventory row, and commit both together;
the `IntegrityError` and `SQLAlchemyError` handlers roll the transaction
back, discarding both inserts. -/
def create_product (s : DBState) (r : RawRequest) (o : CommitOutcome) :
    CreateProductResult × DBState :=
  match validateReq r with
  | none => (.validationFailed, s)
  | some v =>
    match findWarehouse s v.warehouse_id with
    | none => (.warehouseNotFound v.warehouse_id, s)
    | some _ =>
      if s.products.any (fun p => p.sku == v.sku) then
        (.duplicateSku v.sku, s)
      else
        match o with
        | .integrityError => (.constraintViolation, s)
        | .dbError => (.storageFailure, s)
        | .ok =>
          (.created (product_to_dict (newProductRow s v))
              { warehouse_id := (newInventoryRow s v).warehouse_id
                quantity := (newInventoryRow s v).quantity },
            commitState s v)

/-- The response of `POST /api/warehouses` (`app.py` lines 276-317). -/
inductive CreateWarehouseResult where
  | validationFailed
  | storageFailure
  | created (warehouse : WarehouseDict)
deriving Repr, DecidableEq

/-- `create_warehouse` (`app.py` lines 276-317): validate name and
location (`Length(1,255)` each), insert, commit; any `SQLAlchemyError`
(which includes `IntegrityError`) rolls back and yields 500. -/
def create_warehouse (s : DBState) (r : RawWarehouseRequest)
    (o : CommitOutcome) : CreateWarehouseResult × DBState :=
  if (1 ≤ r.name.length && r.name.length ≤ 255)
      && (1 ≤ r.location.length && r.location.length ≤ 255) then
    match o with
    | .ok =>
      let w : WarehouseRow := { id := s.nextId, name := r.name, location := r.location }
      (.created (warehouse_to_dict w),
        { s with warehouses := s.warehouses ++ [w], nextId := s.nextId + 1 })
    | _ => (.storageFailure, s)
  else
    (.validationFailed, s)

/-- One inventory entry as embedded by `get_products`
(`app.py` lines 330-337): joined with the warehouse name and the
available quantity. -/
structure ListedInventory where
  warehouse_id : Nat
  warehouse_name : PyStr
  quantity : Int
  reserved_quantity : Int
  available_quantity : Int
deriving Repr, DecidableEq

/-- One element of the `products` array returned by `get_products`:
`product.to_dict()` plus its `inventories` list. -/
structure ProductListEntry where
  dict : ProductDict
  inventories : List ListedInventory
deriving Repr, DecidableEq

/-- Name of the warehouse an inventory row points at
(`inventory.warehouse.name`; the foreign key guarantees presence, the
model defaults to the empty string when the row is dangling). -/
def warehouseNameOf (s : DBState) (wid : Nat) : PyStr :=
  match findWarehouse s wid with
  | some w => w.name
  | none => []

/-- `get_products` (`app.py` lines 319-348): every product with its
inventory rows (the `Product.inventories` relationship: rows whose
`product_id` matches), each annotated with warehouse name and available
quantity; returns the list and `total = len(result)`. -/
def get_products (s : DBState) : List ProductListEntry × Nat :=
  let result := s.products.map (fun p =>
    { dict := product_to_dict p
      inventories := (s.inventories.filter (fun inv => inv.product_id == p.id)).map
        (fun inv =>
          { warehouse_id := inv.warehouse_id
            warehouse_name := warehouseNameOf s inv.warehouse_id
            quantity := inv.quantity
            reserved_quantity := inv.reserved_quantity
            available_quantity := inv.available_quantity })
      : ProductListEntry })
  (result, result.length)

/-- `get_warehouses` (`app.py` lines 350-364). -/
def get_warehouses (s : DBState) : List WarehouseDict × Nat :=
  let result := s.warehouses.map warehouse_to_dict
  (result, result.length)

/-- `create_tables` (`app.py` lines 389-406): run before the first
request; creates the tables and, when the warehouse table is empty, seeds
the three default warehouses. -/
def createTables (s : DBState) : DBState :=
  if s.warehouses.length == 0 then
    let w1 : WarehouseRow :=
      { id := s.nextId, name := strCodes "Main Warehouse",
        location := strCodes "New York, NY" }
    let w2 : WarehouseRow :=
      { id := s.nextId + 1, name := strCodes "West Coast Warehouse",
        location := strCodes "Los Angeles, CA" }
    let w3 : WarehouseRow :=
      { id := s.nextId + 2, name := strCodes "East Coast Warehouse",
        location := strCodes "Boston, MA" }
    { s with warehouses := s.warehouses ++ [w1, w2, w3], nextId := s.nextId + 3 }
  else
    s

/-- The state the service runs its first request against when started on
a fresh database. -/
def seededInit : DBState := createTables emptyState

/-- States reachable through the API operations from a fresh start
(`create_tables` on an empty database, then any sequence of the two
mutating endpoints with any commit outcomes; the GET endpoints and the
health check do not change the database). -/
inductive Reachable : DBState → Prop
  | init : Reachable seededInit
  | step_product (r : RawRequest) (o : CommitOutcome) {s : DBState} :
      Reachable s → Reachable (create_product s r o).2
  | step_warehouse (r : RawWarehouseRequest) (o : CommitOutcome) {s : DBState} :
      Reachable s → Reachable (create_warehouse s r o).2

/-! ### Derived predicates -/

/-- Every product row has a matching inventory row — the
"no product-without-inventory" atomicity invariant. -/
def ProdInvOk (s : DBState) : Prop :=
  ∀ p ∈ s.products, ∃ inv ∈ s.inventories, inv.product_id = p.id

instance : DecidablePred ProdInvOk := fun s =>
  inferInstanceAs (Decidable (∀ p ∈ s.products, ∃ inv ∈ s.inventories, inv.product_id = p.id))

/-- Every inventory row has `0 ≤ reserved_quantity ≤ quantity`. -/
def InvQtyOk (s : DBState) : Prop :=
  ∀ inv ∈ s.inventories, 0 ≤ inv.reserved_quantity ∧ inv.reserved_quantity ≤ inv.quantity

/-- All inventory entries embedded in a `get_products` response. -/
def listedInventories (s : DBState) : List ListedInventory :=
  ((get_products s).1.map (fun e => e.inventories)).flatten

/-! ### Concrete test inputs -/

/-- A well-formed creation request (sku normalizes to `ABC-1`). -/
def rGood : RawRequest :=
  { name := strCodes "Widget"
    sku := strCodes " abc-1 "
    price := ⟨2999, 2⟩
    description := none
    warehouse_id := 0
    initial_quantity := some 5 }

/-- The same normalized SKU submitted directly, as in the spec's
idempotence scenario. -/
def rDup : RawRequest :=
  { name := strCodes "Widget2"
    sku := strCodes "ABC-1"
    price := ⟨4999, 2⟩
    description := none
    warehouse_id := 0
    initial_quantity := some 2 }

/-- The invalid-SKU request of `test_api.py` test 7
(`"invalid@sku!"`, characters outside `[A-Z0-9_-]`). -/
def rBadSku : RawRequest :=
  { name := strCodes "Bad SKU Product"
    sku := strCodes "invalid@sku!"
    price := ⟨2000, 2⟩
    description := none
    warehouse_id := 0
    initial_quantity := some 1 }

/-- A request whose SKU is 60 characters long (over the claimed 50). -/
def rLongSku : RawRequest :=
  { name := strCodes "Long SKU Product"
    sku := strCodes "A234567890A234567890A234567890A234567890A234567890A234567890"
    price := ⟨2000, 2⟩
    description := none
    warehouse_id := 0
    initial_quantity := some 1 }

/-- The no-`initial_quantity` request of `manual_test.py` issue 5. -/
def rNoQty : RawRequest :=
  { name := strCodes "No Quantity"
    sku := strCodes "NOQTY"
    price := ⟨1500, 2⟩
    description := none
    warehouse_id := 0
    initial_quantity := none }

/-- A request with price 1000000.00, above the claimed 999999.99 cap. -/
def rBigPrice : RawRequest :=
  { name := strCodes "Pricey"
    sku := strCodes "BIG-1"
    price := ⟨100000000, 2⟩
    description := none
    warehouse_id := 0
    initial_quantity := some 1 }

/-- A request with price exactly 0.01, the claimed minimum. -/
def rMinPrice : RawRequest :=
  { name := strCodes "Cheap"
    sku := strCodes "CHEAP-1"
    price := ⟨1, 2⟩
    description := none
    warehouse_id := 0
    initial_quantity := some 1 }

/-- A request naming a warehouse id that does not exist. -/
def rNoWarehouse : RawRequest :=
  { name := strCodes "Orphan"
    sku := strCodes "ORP-001"
    price := ⟨1500, 2⟩
    description := none
    warehouse_id := 99
    initial_quantity := some 5 }

/-- The first seeded warehouse row. -/
def mainWarehouse : WarehouseRow :=
  { id := 0
    name := strCodes "Main Warehouse"
    location := strCodes "New York, NY" }

/-- The validated form of `rGood`. -/
def vGood : Validated :=
  { name := strCodes "Widget"
    sku := strCodes "ABC-1"
    price := 2999
    description := none
    warehouse_id := 0
    initial_quantity := 5 }

/-- The validated form of `rDup`. -/
def vDup : Validated :=
  { name := strCodes "Widget2"
    sku := strCodes "ABC-1"
    price := 4999
    description := none
    warehouse_id := 0
    initial_quantity := 2 }

/-- The validated form of `rNoWarehouse`. -/
def vNoWarehouse : Validated :=
  { name := strCodes "Orphan"
    sku := strCodes "ORP-001"
    price := 1500
    description := none
    warehouse_id := 99
    initial_quantity := 5 }

/-- The price representation inside a `create_product` response body, when
the response is a 201. -/
def resultPriceRepr : CreateProductResult → Option SerializedPrice
  | .created d _ => some d.price
  | _ => none

end StockFlow

namespace StockFlow

/-! ### Helper lemmas: SKU normalization -/

theorem pyUpperChar_idem (c : Nat) : pyUpperChar (pyUpperChar c) = pyUpperChar c := by
  unfold pyUpperChar
  by_cases h : 97 ≤ c ∧ c ≤ 122
  · rw [if_pos h, if_neg (by omega)]
  · rw [if_neg h, if_neg h]

theorem pyIsSpace_pyUpperChar (c : Nat) : pyIsSpace (pyUpperChar c) = pyIsSpace c := by
  unfold pyUpperChar
  by_cases h : 97 ≤ c ∧ c ≤ 122
  · rw [if_pos h]
    have h1 : pyIsSpace (c - 32) = false := by
      simp only [pyIsSpace, Bool.or_eq_false_iff, beq_eq_false_iff_ne, ne_eq]
      omega
    have h2 : pyIsSpace c = false := by
      simp only [pyIsSpace, Bool.or_eq_false_iff, beq_eq_false_iff_ne, ne_eq]
      omega
    rw [h1, h2]
  · rw [if_neg h]

theorem pyUpper_idem (s : PyStr) : pyUpper (pyUpper s) = pyUpper s := by
  unfold pyUpper
  rw [List.map_map]
  exact List.map_congr_left (fun a _ => pyUpperChar_idem a)

theorem pyUpper_dropWhile (s : PyStr) :
    pyUpper (s.dropWhile pyIsSpace) = (pyUpper s).dropWhile pyIsSpace := by
  unfold pyUpper
  rw [List.dropWhile_map]
  have h : pyIsSpace ∘ pyUpperChar = pyIsSpace := funext pyIsSpace_pyUpperChar
  rw [h]

theorem pyUpper_reverse (s : PyStr) : pyUpper s.reverse = (pyUpper s).reverse :=
  List.map_reverse _ _

theorem pyUpper_pyStrip (s : PyStr) : pyUpper (pyStrip s) = pyStrip (pyUpper s) := by
  unfold pyStrip
  rw [pyUpper_reverse, pyUpper_dropWhile, pyUpper_reverse, pyUpper_dropWhile]

theorem head?_dropWhile_false {α : Type} {p : α → Bool} (l : List α) :
    ∀ x, (l.dropWhile p).head? = some x → p x = false := by
  induction l with
  | nil => intro x hx; simp at hx
  | cons a t ih =>
    intro x hx
    by_cases h : p a
    · rw [List.dropWhile_cons, if_pos h] at hx
      exact ih x hx
    · rw [List.dropWhile_cons, if_neg h] at hx
      simp only [List.head?_cons, Option.some.injEq] at hx
      subst hx
      simpa using h

theorem dropWhile_eq_self_of_head? {α : Type} {p : α → Bool} {l : List α}
    (h : ∀ x, l.head? = some x → p x = false) : l.dropWhile p = l := by
  cases l with
  | nil => rfl
  | cons a t => rw [List.dropWhile_cons, h a rfl]; simp

theorem stripBoth_idem {α : Type} (p : α → Bool) (l : List α) :
    (((((((l.dropWhile p).reverse.dropWhile p).reverse).dropWhile p).reverse).dropWhile p).reverse) =
      ((l.dropWhile p).reverse.dropWhile p).reverse := by
  set A := l.dropWhile p with hA
  set B := A.reverse.dropWhile p with hB
  obtain ⟨t, ht⟩ := List.dropWhile_suffix (l := A.reverse) p
  have hA2 : A = B.reverse ++ t.reverse := by
    calc A = A.reverse.reverse := (List.reverse_reverse A).symm
    _ = (t ++ B).reverse := by rw [← hB] at ht; rw [ht]
    _ = B.reverse ++ t.reverse := List.reverse_append t B
  have h1 : B.reverse.dropWhile p = B.reverse := by
    apply dropWhile_eq_self_of_head?
    intro x hx
    cases hBrev : B.reverse with
    | nil => rw [hBrev] at hx; simp at hx
    | cons b bs =>
      rw [hBrev] at hx
      simp only [List.head?_cons, Option.some.injEq] at hx
      subst hx
      have hhead : A.head? = some b := by
        rw [hA2, hBrev]
        simp
      exact head?_dropWhile_false l b (by rw [← hA]; exact hhead)
  rw [h1, List.reverse_reverse, List.dropWhile_idempotent]

theorem pyStrip_idem (s : PyStr) : pyStrip (pyStrip s) = pyStrip s := by
  unfold pyStrip
  exact stripBoth_idem pyIsSpace s

theorem normalizeSku_idem (s : PyStr) : normalizeSku (normalizeSku s) = normalizeSku s := by
  unfold normalizeSku
  rw [pyUpper_pyStrip, pyUpper_idem, pyStrip_idem]

end StockFlow

namespace StockFlow

/-! ### Helper lemmas: validation -/

theorem validateReq_fields {r : RawRequest} {v : Validated} (h : validateReq r = some v) :
    v = { name := r.name
          sku := normalizeSku r.sku
          price := quantizeHalfEven r.price
          description := r.description
          warehouse_id := r.warehouse_id
          initial_quantity := r.initial_quantity.getD 0 } := by
  unfold validateReq at h
  split at h
  · exact (Option.some.inj h).symm
  · exact absurd h (by simp)

theorem validateReq_initial_some {r : RawRequest} {v : Validated} (h : validateReq r = some v) :
    ∃ q, r.initial_quantity = some q ∧ 0 ≤ q := by
  unfold validateReq at h
  split at h
  · rename_i hcond
    simp only [Bool.and_eq_true] at hcond
    obtain ⟨⟨_, _⟩, hq⟩ := hcond
    cases hi : r.initial_quantity with
    | none => rw [hi] at hq; simp at hq
    | some q =>
      rw [hi] at hq
      exact ⟨q, rfl, of_decide_eq_true hq⟩
  · exact absurd h (by simp)

theorem validateReq_initial_nonneg {r : RawRequest} {v : Validated}
    (h : validateReq r = some v) : 0 ≤ v.initial_quantity := by
  obtain ⟨q, hq, hge⟩ := validateReq_initial_some h
  rw [validateReq_fields h]
  simpa [hq] using hge

theorem validateReq_none_of_price_fail {r : RawRequest}
    (hp : priceCheck (quantizeHalfEven r.price) = false) : validateReq r = none := by
  unfold validateReq
  simp [hp]

theorem validateReq_none_of_no_initial {r : RawRequest}
    (hq : r.initial_quantity = none) : validateReq r = none := by
  unfold validateReq
  simp [hq]

/-! ### Helper lemmas: exit paths of `create_product` -/

theorem create_product_not_valid {s : DBState} {r : RawRequest} {o : CommitOutcome}
    (h : validateReq r = none) :
    create_product s r o = (.validationFailed, s) := by
  simp only [create_product, h]

theorem create_product_no_warehouse {s : DBState} {r : RawRequest} {o : CommitOutcome}
    {v : Validated} (hv : validateReq r = some v)
    (hw : findWarehouse s v.warehouse_id = none) :
    create_product s r o = (.warehouseNotFound v.warehouse_id, s) := by
  simp only [create_product, hv, hw]

theorem create_product_dup {s : DBState} {r : RawRequest} {o : CommitOutcome}
    {v : Validated} {w : WarehouseRow} (hv : validateReq r = some v)
    (hw : findWarehouse s v.warehouse_id = some w)
    (hd : s.products.any (fun p => p.sku == v.sku) = true) :
    create_product s r o = (.duplicateSku v.sku, s) := by
  simp only [create_product, hv, hw, hd, if_true]

theorem create_product_integrity {s : DBState} {r : RawRequest}
    {v : Validated} {w : WarehouseRow} (hv : validateReq r = some v)
    (hw : findWarehouse s v.warehouse_id = some w)
    (hd : s.products.any (fun p => p.sku == v.sku) = false) :
    create_product s r .integrityError = (.constraintViolation, s) := by
  simp only [create_product, hv, hw, hd, Bool.false_eq_true, if_false]

theorem create_product_db_error {s : DBState} {r : RawRequest}
    {v : Validated} {w : WarehouseRow} (hv : validateReq r = some v)
    (hw : findWarehouse s v.warehouse_id = some w)
    (hd : s.products.any (fun p => p.sku == v.sku) = false) :
    create_product s r .dbError = (.storageFailure, s) := by
  simp only [create_product, hv, hw, hd, Bool.false_eq_true, if_false]

theorem create_product_ok {s : DBState} {r : RawRequest}
    {v : Validated} {w : WarehouseRow} (hv : validateReq r = some v)
    (hw : findWarehouse s v.warehouse_id = some w)
    (hd : s.products.any (fun p => p.sku == v.sku) = false) :
    create_product s r .ok =
      (.created (product_to_dict (newProductRow s v))
          { warehouse_id := (newInventoryRow s v).warehouse_id
            quantity := (newInventoryRow s v).quantity },
        commitState s v) := by
  simp only [create_product, hv, hw, hd, Bool.false_eq_true, if_false]

theorem create_product_201_inv {s : DBState} {r : RawRequest} {o : CommitOutcome}
    (hs : (create_product s r o).1.status = 201) :
    ∃ v w, validateReq r = some v ∧ findWarehouse s v.warehouse_id = some w ∧
      s.products.any (fun p => p.sku == v.sku) = false ∧ o = .ok ∧
      (create_product s r o).1 = .created (product_to_dict (newProductRow s v))
          { warehouse_id := (newInventoryRow s v).warehouse_id
            quantity := (newInventoryRow s v).quantity } ∧
      (create_product s r o).2 = commitState s v := by
  cases hv : validateReq r with
  | none =>
    rw [create_product_not_valid hv] at hs
    simp [CreateProductResult.status] at hs
  | some v =>
    cases hw : findWarehouse s v.warehouse_id with
    | none =>
      rw [create_product_no_warehouse hv hw] at hs
      simp [CreateProductResult.status] at hs
    | some w =>
      cases hd : s.products.any (fun p => p.sku == v.sku) with
      | true =>
        rw [create_product_dup hv hw hd] at hs
        simp [CreateProductResult.status] at hs
      | false =>
        cases o with
        | integrityError =>
          rw [create_product_integrity hv hw hd] at hs
          simp [CreateProductResult.status] at hs
        | dbError =>
          rw [create_product_db_error hv hw hd] at hs
          simp [CreateProductResult.status] at hs
        | ok =>
          refine ⟨v, w, by simp [hv], by simp [hw], by simp [hd], rfl, ?_, ?_⟩ <;>
            rw [create_product_ok hv hw hd]

theorem create_product_state_cases (s : DBState) (r : RawRequest) (o : CommitOutcome) :
    ((create_product s r o).2 = s ∧ (create_product s r o).1.status ≠ 201) ∨
    ∃ v, validateReq r = some v ∧ o = .ok ∧
      (create_product s r o).1.status = 201 ∧
      (create_product s r o).2 = commitState s v := by
  cases hv : validateReq r with
  | none =>
    left; rw [create_product_not_valid hv]; exact ⟨rfl, by simp [CreateProductResult.status]⟩
  | some v =>
    cases hw : findWarehouse s v.warehouse_id with
    | none =>
      left; rw [create_product_no_warehouse hv hw]
      exact ⟨rfl, by simp [CreateProductResult.status]⟩
    | some w =>
      cases hd : s.products.any (fun p => p.sku == v.sku) with
      | true =>
        left; rw [create_product_dup hv hw hd]
        exact ⟨rfl, by simp [CreateProductResult.status]⟩
      | false =>
        cases o with
        | integrityError =>
          left; rw [create_product_integrity hv hw hd]
          exact ⟨rfl, by simp [CreateProductResult.status]⟩
        | dbError =>
          left; rw [create_product_db_error hv hw hd]
          exact ⟨rfl, by simp [CreateProductResult.status]⟩
        | ok =>
          right
          refine ⟨v, by simp [hv], rfl, ?_, ?_⟩ <;> rw [create_product_ok hv hw hd]
          rfl

theorem create_warehouse_inventories (s : DBState) (r : RawWarehouseRequest)
    (o : CommitOutcome) : (create_warehouse s r o).2.inventories = s.inventories := by
  unfold create_warehouse
  split
  · cases o <;> rfl
  · rfl

theorem create_warehouse_products (s : DBState) (r : RawWarehouseRequest)
    (o : CommitOutcome) : (create_warehouse s r o).2.products = s.products := by
  unfold create_warehouse
  split
  · cases o <;> rfl
  · rfl

end StockFlow

namespace StockFlow

/-! ### Claim theorems -/

/-- C10: on the first request after startup against a fresh (empty)
database, `create_tables` seeds the three default warehouses
(Main Warehouse, West Coast Warehouse, East Coast Warehouse), so
`get_warehouses` reports `total = 3` with exactly those names even though
no warehouse was ever created through the API. -/
theorem default_warehouse_seeding :
    (get_warehouses (createTables emptyState)).2 = 3 ∧
    (get_warehouses (createTables emptyState)).1.map WarehouseDict.name =
      [strCodes "Main Warehouse", strCodes "West Coast Warehouse",
        strCodes "East Coast Warehouse"] ∧
    emptyState.warehouses = [] := by
  decide

/-- C4 (code-bug evaluation): a well-formed request that omits
`initial_quantity` is rejected — `CreateProductSchema` declares the field
`required=True`, so `schema.load` raises a `ValidationError` and
`create_product` answers 400 and persists nothing, for every commit
outcome; the spec and `manual_test.py` (issue 5, "should be 201") expect
success with quantity 0. -/
theorem initial_quantity_required_bug :
    rNoQty.initial_quantity = none ∧
    validateReq rNoQty = none ∧
    (∀ o : CommitOutcome, create_product seededInit rNoQty o = (.validationFailed, seededInit)) ∧
    CreateProductResult.validationFailed.status = 400 := by
  refine ⟨rfl, by decide, ?_, rfl⟩
  intro o
  exact create_product_not_valid (by decide)

/-- C3 (code-bug evaluation): the schema validates only SKU length 1..100
— there is no `[A-Z0-9_-]+` pattern check and no 50-character cap — so
the `test_api.py` test-7 input `"invalid@sku!"` is accepted with 201 and
stored as `"INVALID@SKU!"`, and a 60-character SKU is accepted as well,
where the claim requires a 400 `InvalidSku` rejection for both. -/
theorem invalid_sku_accepted_bug :
    (create_product seededInit rBadSku .ok).1.status = 201 ∧
    (∃ p ∈ (create_product seededInit rBadSku .ok).2.products,
      p.sku = strCodes "INVALID@SKU!") ∧
    rLongSku.sku.length = 60 ∧
    (create_product (create_product seededInit rBadSku .ok).2 rLongSku .ok).1.status = 201 := by
  decide

/-- C2 counterexample: the request `rBigPrice` carries price 1000000.00,
strictly greater than 999999.99, yet `create_product` answers 201 and
persists a product at that price — the claimed upper-bound rejection does
not happen. -/
theorem price_upper_bound_cex :
    (create_product seededInit rBigPrice .ok).1.status = 201 ∧
    ∃ p ∈ (create_product seededInit rBigPrice .ok).2.products,
      p.price = 100000000 := by
  decide

/-- C2 (amended): the only price bound `create_product` enforces is the
validator's minimum, and that minimum is the binary float `0.01`
(slightly above the exact decimal 0.01), so a quantized price passes the
check exactly when it is at least 2 cents — price 0.01 itself is
rejected — and there is no upper bound at all; whenever the check fails
the request ends 400 with the database unchanged. -/
theorem price_validation_amended :
    (∀ cents : Int, priceCheck cents = true ↔ 2 ≤ cents) ∧
    (∀ (s : DBState) (r : RawRequest) (o : CommitOutcome),
      priceCheck (quantizeHalfEven r.price) = false →
      create_product s r o = (.validationFailed, s)) := by
  constructor
  · intro cents
    unfold priceCheck
    rw [decide_eq_true_eq]
    omega
  · intro s r o hp
    exact create_product_not_valid (validateReq_none_of_price_fail hp)

/-- C2 amended-claim witness: price 0.01 (one cent, the claimed minimum)
fails the check and is rejected with 400, leaving the database
unchanged. -/
theorem price_validation_amended_witness :
    priceCheck (quantizeHalfEven rMinPrice.price) = false ∧
    create_product seededInit rMinPrice .ok = (.validationFailed, seededInit) :=
  ⟨by decide, price_validation_amended.2 seededInit rMinPrice .ok (by decide)⟩

/-- C5 counterexample: the 201 response of `create_product` for the valid
request `rGood` serializes the stored decimal price through Python
`float(...)` (`Product.to_dict`, `app.py` line 51), and so does every
product entry of the subsequent `list_products` response — the price is
returned through a binary floating-point representation. -/
theorem price_float_serialization_cex :
    resultPriceRepr (create_product seededInit rGood .ok).1 =
      some (SerializedPrice.asFloat 2999) ∧
    (SerializedPrice.asFloat 2999).isFloatRepr = true ∧
    ∀ e ∈ (get_products (create_product seededInit rGood .ok).2).1,
      e.dict.price.isFloatRepr = true := by
  decide

end StockFlow

namespace StockFlow

/-- C5 (amended): the price is validated and stored as an exact
fixed-point decimal (the stored row carries exactly the quantized cents
of the submitted value), but the serialization paths convert it through
binary floating point: `Product.to_dict` returns `float(self.price)`, so
both the 201 body of `create_product` and every entry of `list_products`
carry a float-represented price. -/
theorem price_serialization_amended :
    (∀ p : ProductRow, (product_to_dict p).price = .asFloat p.price ∧
      (product_to_dict p).price.isFloatRepr = true) ∧
    (∀ s : DBState, ∀ e ∈ (get_products s).1, e.dict.price.isFloatRepr = true) ∧
    (∀ (s : DBState) (r : RawRequest) (v : Validated) (w : WarehouseRow),
      validateReq r = some v → findWarehouse s v.warehouse_id = some w →
      s.products.any (fun p => p.sku == v.sku) = false →
      newProductRow s v ∈ (create_product s r .ok).2.products ∧
      (newProductRow s v).price = quantizeHalfEven r.price) := by
  refine ⟨fun p => ⟨rfl, rfl⟩, ?_, ?_⟩
  · intro s e he
    simp only [get_products, List.mem_map] at he
    obtain ⟨p, _, rfl⟩ := he
    rfl
  · intro s r v w hv hw hd
    rw [create_product_ok hv hw hd]
    constructor
    · simp [commitState]
    · rw [validateReq_fields hv]
      rfl

/-- C5 amended-claim witness at a concrete run. -/
theorem price_serialization_amended_witness :
    validateReq rGood = some vGood ∧
    findWarehouse seededInit vGood.warehouse_id = some mainWarehouse ∧
    seededInit.products.any (fun p => p.sku == vGood.sku) = false ∧
    (newProductRow seededInit vGood ∈ (create_product seededInit rGood .ok).2.products ∧
      (newProductRow seededInit vGood).price = quantizeHalfEven rGood.price) :=
  ⟨by decide, by decide, by decide,
    price_serialization_amended.2.2 seededInit rGood vGood mainWarehouse
      (by decide) (by decide) (by decide)⟩

/-- C7: when the validated payload names a warehouse id that does not
resolve, `create_product` answers 404 (warehouse not found) and the
database is unchanged — no product row and no inventory row is
persisted. -/
theorem warehouse_not_found_no_persist (s : DBState) (r : RawRequest)
    (o : CommitOutcome) (v : Validated) (hv : validateReq r = some v)
    (hw : findWarehouse s v.warehouse_id = none) :
    create_product s r o = (.warehouseNotFound v.warehouse_id, s) ∧
    (CreateProductResult.warehouseNotFound v.warehouse_id).status = 404 ∧
    (create_product s r o).2.products = s.products ∧
    (create_product s r o).2.inventories = s.inventories := by
  have h : create_product s r o = (.warehouseNotFound v.warehouse_id, s) :=
    create_product_no_warehouse hv hw
  exact ⟨h, rfl, by rw [h], by rw [h]⟩

/-- C7 witness: warehouse id 99 does not exist in the seeded database. -/
theorem warehouse_not_found_no_persist_witness :
    validateReq rNoWarehouse = some vNoWarehouse ∧
    findWarehouse seededInit vNoWarehouse.warehouse_id = none ∧
    create_product seededInit rNoWarehouse .ok = (.warehouseNotFound 99, seededInit) :=
  ⟨by decide, by decide,
    (warehouse_not_found_no_persist seededInit rNoWarehouse .ok vNoWarehouse
      (by decide) (by decide)).1⟩

/-- C1: `create_product` is atomic.  Starting from any state where every
product row has a matching inventory row, (i) the invariant still holds
after the call, whatever the outcome; (ii) a 201 response means both the
new product row and its matching inventory row are persisted; (iii) any
non-201 response leaves the database exactly as it was (the error paths
return before writing or roll the transaction back); and (iv) an
`IntegrityError` raised at commit time yields the 409 constraint-violation
response with the transaction rolled back. -/
theorem create_product_atomicity (s : DBState) (r : RawRequest) (o : CommitOutcome)
    (hinv : ProdInvOk s) :
    ProdInvOk (create_product s r o).2 ∧
    ((create_product s r o).1.status = 201 →
      ∃ v, validateReq r = some v ∧
        newProductRow s v ∈ (create_product s r o).2.products ∧
        newInventoryRow s v ∈ (create_product s r o).2.inventories ∧
        (newInventoryRow s v).product_id = (newProductRow s v).id) ∧
    ((create_product s r o).1.status ≠ 201 → (create_product s r o).2 = s) ∧
    (∀ (v : Validated) (w : WarehouseRow), validateReq r = some v →
      findWarehouse s v.warehouse_id = some w →
      s.products.any (fun p => p.sku == v.sku) = false → o = .integrityError →
      (create_product s r o).1 = .constraintViolation ∧
      (create_product s r o).1.status = 409 ∧ (create_product s r o).2 = s) := by
  refine ⟨?_, ?_, ?_, ?_⟩
  · rcases create_product_state_cases s r o with ⟨heq, _⟩ | ⟨v, hv, _, _, heq⟩
    · rw [heq]; exact hinv
    · rw [heq]
      intro p hp
      simp only [commitState, List.mem_append] at hp ⊢
      rcases hp with hold | hnew
      · obtain ⟨inv, hi, hpi⟩ := hinv p hold
        exact ⟨inv, Or.inl hi, hpi⟩
      · have hp' : p = newProductRow s v := by simpa using hnew
        subst hp'
        exact ⟨newInventoryRow s v, by simp, rfl⟩
  · intro h201
    obtain ⟨v, w, hv, hw, hd, ho, hres, hs'⟩ := create_product_201_inv h201
    refine ⟨v, hv, ?_, ?_, rfl⟩
    · rw [hs']; simp [commitState]
    · rw [hs']; simp [commitState]
  · intro hne
    rcases create_product_state_cases s r o with ⟨heq, _⟩ | ⟨v, hv, ho, h201, heq⟩
    · exact heq
    · exact absurd h201 hne
  · intro v w hv hw hd ho
    subst ho
    have h : create_product s r .integrityError = (.constraintViolation, s) :=
      create_product_integrity hv hw hd
    rw [h]
    exact ⟨rfl, rfl, rfl⟩

/-- C1 witness: the invariant hypothesis holds in the seeded state and is
preserved by a concrete successful creation. -/
theorem create_product_atomicity_witness :
    ProdInvOk seededInit ∧ ProdInvOk (create_product seededInit rGood .ok).2 :=
  ⟨by decide, (create_product_atomicity seededInit rGood .ok (by decide)).1⟩

/-- C6: SKU normalization (`upper().strip()`) is idempotent, and it is
applied both before the uniqueness pre-check and before storage, so after
a successful creation any second request whose SKU has the same
normalized form — for example `" abc-1 "` followed by `"ABC-1"` — hits
the pre-check and fails with the 409 duplicate-SKU response, whatever
commit outcome the driver would have produced. -/
theorem sku_normalization_idempotent_duplicate :
    (∀ s : PyStr, normalizeSku (normalizeSku s) = normalizeSku s) ∧
    (∀ (s : DBState) (r1 r2 : RawRequest) (o2 : CommitOutcome) (v2 : Validated)
      (w : WarehouseRow),
      (create_product s r1 .ok).1.status = 201 →
      validateReq r2 = some v2 →
      normalizeSku r2.sku = normalizeSku r1.sku →
      findWarehouse (create_product s r1 .ok).2 v2.warehouse_id = some w →
      create_product (create_product s r1 .ok).2 r2 o2 =
        (.duplicateSku v2.sku, (create_product s r1 .ok).2) ∧
      (CreateProductResult.duplicateSku v2.sku).status = 409) := by
  refine ⟨normalizeSku_idem, ?_⟩
  intro s r1 r2 o2 v2 w h201 hv2 hsku hw
  obtain ⟨v1, w1, hv1, hw1, hd1, _, _, hs'⟩ := create_product_201_inv h201
  have hskueq : v1.sku = v2.sku := by
    rw [validateReq_fields hv1, validateReq_fields hv2]
    simpa using hsku.symm
  have hdup : (create_product s r1 .ok).2.products.any (fun p => p.sku == v2.sku) = true := by
    rw [hs']
    simp [commitState, List.any_append, newProductRow, hskueq]
  exact ⟨create_product_dup hv2 hw hdup, rfl⟩

/-- C6 witness: the spec's scenario `" abc-1 "` then `"ABC-1"`. -/
theorem sku_normalization_idempotent_duplicate_witness :
    (create_product seededInit rGood .ok).1.status = 201 ∧
    create_product (create_product seededInit rGood .ok).2 rDup .ok =
      (.duplicateSku (strCodes "ABC-1"), (create_product seededInit rGood .ok).2) :=
  ⟨by decide,
    (sku_normalization_idempotent_duplicate.2 seededInit rGood rDup .ok vDup mainWarehouse
      (by decide) (by decide) (by decide) (by decide)).1⟩

end StockFlow

namespace StockFlow

theorem warehouseNameOf_commitState (s : DBState) (v : Validated) (wid : Nat) :
    warehouseNameOf (commitState s v) wid = warehouseNameOf s wid := rfl

theorem warehouseNameOf_eq_of_find {s : DBState} {wid : Nat} {w : WarehouseRow}
    (hw : findWarehouse s wid = some w) : warehouseNameOf s wid = w.name := by
  unfold warehouseNameOf
  rw [hw]

theorem get_products_commitState (s : DBState) (v : Validated)
    (hfp : ∀ p ∈ s.products, p.id ≠ s.nextId)
    (hfi : ∀ inv ∈ s.inventories, inv.product_id ≠ s.nextId) :
    (get_products (commitState s v)).1 =
      (get_products s).1 ++
        [{ dict := product_to_dict (newProductRow s v)
           inventories := [{ warehouse_id := v.warehouse_id
                             warehouse_name := warehouseNameOf s v.warehouse_id
                             quantity := v.initial_quantity
                             reserved_quantity := 0
                             available_quantity := v.initial_quantity }] }] := by
  unfold get_products
  dsimp only
  rw [show (commitState s v).products = s.products ++ [newProductRow s v] from rfl]
  rw [List.map_append]
  congr 1
  · apply List.map_congr_left
    intro p hp
    have hne : ((newInventoryRow s v).product_id == p.id) = false :=
      beq_eq_false_iff_ne.mpr (fun hcontra => hfp p hp (by rw [← hcontra]; rfl))
    have hfilter : (commitState s v).inventories.filter (fun inv => inv.product_id == p.id) =
        s.inventories.filter (fun inv => inv.product_id == p.id) := by
      rw [show (commitState s v).inventories = s.inventories ++ [newInventoryRow s v] from rfl]
      rw [List.filter_append]
      simp [hne]
    rw [hfilter]
    simp only [warehouseNameOf_commitState]
  · have hfilter2 : (commitState s v).inventories.filter
        (fun inv => inv.product_id == (newProductRow s v).id) = [newInventoryRow s v] := by
      rw [show (commitState s v).inventories = s.inventories ++ [newInventoryRow s v] from rfl]
      rw [List.filter_append]
      have h1 : s.inventories.filter (fun inv => inv.product_id == (newProductRow s v).id) = [] := by
        rw [List.filter_eq_nil_iff]
        intro a ha
        simp only [beq_eq_false_iff_ne, ne_eq, Bool.not_eq_true, beq_iff_eq]
        exact hfi a ha
      have h2 : [newInventoryRow s v].filter
          (fun inv => inv.product_id == (newProductRow s v).id) = [newInventoryRow s v] := by
        simp [newInventoryRow, newProductRow]
      rw [h1, h2, List.nil_append]
    simp only [List.map_cons, List.map_nil, hfilter2]
    simp only [warehouseNameOf_commitState]
    simp [newInventoryRow, newProductRow, InventoryRow.available_quantity]

/-- C8: after a successful `create_product` (valid payload, resolving
warehouse, fresh SKU, commit succeeds), `list_products` shows exactly the
old list plus one new entry, and that entry's single embedded inventory
row carries the supplied initial quantity, the warehouse's name and the
available quantity (equal to the initial quantity, nothing reserved). -/
theorem create_then_list_shows_new_product (s : DBState) (r : RawRequest)
    (v : Validated) (w : WarehouseRow) (q : Int)
    (hv : validateReq r = some v)
    (hw : findWarehouse s v.warehouse_id = some w)
    (hd : s.products.any (fun p => p.sku == v.sku) = false)
    (hq : r.initial_quantity = some q)
    (hfp : ∀ p ∈ s.products, p.id ≠ s.nextId)
    (hfi : ∀ inv ∈ s.inventories, inv.product_id ≠ s.nextId) :
    (create_product s r .ok).1.status = 201 ∧
    (get_products (create_product s r .ok).2).1 =
      (get_products s).1 ++
        [{ dict := product_to_dict (newProductRow s v)
           inventories := [{ warehouse_id := v.warehouse_id
                             warehouse_name := w.name
                             quantity := q
                             reserved_quantity := 0
                             available_quantity := q }] }] ∧
    (get_products (create_product s r .ok).2).2 = (get_products s).2 + 1 := by
  have hvq : v.initial_quantity = q := by
    rw [validateReq_fields hv]
    simp [hq]
  rw [create_product_ok hv hw hd]
  refine ⟨rfl, ?_, ?_⟩
  · rw [get_products_commitState s v hfp hfi, warehouseNameOf_eq_of_find hw, hvq]
  · show ((get_products (commitState s v)).1).length = ((get_products s).1).length + 1
    rw [get_products_commitState s v hfp hfi]
    rw [List.length_append]
    rfl

/-- C8 witness: concrete successful creation against the seeded state. -/
theorem create_then_list_shows_new_product_witness :
    validateReq rGood = some vGood ∧ rGood.initial_quantity = some 5 ∧
    ((create_product seededInit rGood .ok).1.status = 201 ∧
      (get_products (create_product seededInit rGood .ok).2).1 =
        (get_products seededInit).1 ++
          [{ dict := product_to_dict (newProductRow seededInit vGood)
             inventories := [{ warehouse_id := 0
                               warehouse_name := strCodes "Main Warehouse"
                               quantity := 5
                               reserved_quantity := 0
                               available_quantity := 5 }] }] ∧
      (get_products (create_product seededInit rGood .ok).2).2 =
        (get_products seededInit).2 + 1) :=
  ⟨by decide, by decide,
    create_then_list_shows_new_product seededInit rGood vGood mainWarehouse 5
      (by decide) (by decide) (by decide) (by decide) (by decide) (by decide)⟩

/-- C9: in every database state reachable through the API from a fresh
start, every inventory row satisfies
`0 ≤ reserved_quantity ≤ quantity`, and therefore every available
quantity reported by `list_products` is non-negative. -/
theorem inventory_quantities_invariant (s : DBState) (h : Reachable s) :
    InvQtyOk s ∧ ∀ e ∈ listedInventories s, 0 ≤ e.available_quantity := by
  have main : InvQtyOk s := by
    induction h with
    | init =>
      intro inv hinv
      simp [seededInit, createTables, emptyState] at hinv
    | step_product r o h0 ih =>
      rename_i s0
      rcases create_product_state_cases s0 r o with ⟨heq, _⟩ | ⟨v, hv, _, _, heq⟩
      · rw [heq]; exact ih
      · rw [heq]
        intro inv hinv
        simp only [commitState, List.mem_append] at hinv
        rcases hinv with hold | hnew
        · exact ih inv hold
        · have hin : inv = newInventoryRow s0 v := by simpa using hnew
          subst hin
          exact ⟨le_refl 0, validateReq_initial_nonneg hv⟩
    | step_warehouse r o h0 ih =>
      intro inv hinv
      rw [create_warehouse_inventories] at hinv
      exact ih inv hinv
  refine ⟨main, ?_⟩
  intro e he
  simp only [listedInventories, List.mem_flatten, List.mem_map] at he
  obtain ⟨l, ⟨entry, hentry, rfl⟩, hel⟩ := he
  simp only [get_products, List.mem_map] at hentry
  obtain ⟨p, hp, rfl⟩ := hentry
  simp only [List.mem_map] at hel
  obtain ⟨inv, hinvf, rfl⟩ := hel
  have hmem : inv ∈ s.inventories := (List.mem_filter.mp hinvf).1
  have h2 := main inv hmem
  dsimp only
  unfold InventoryRow.available_quantity
  omega

/-- C9 witness at a state holding a real inventory row. -/
theorem inventory_quantities_invariant_witness :
    InvQtyOk (create_product seededInit rGood .ok).2 ∧
    ∀ e ∈ listedInventories (create_product seededInit rGood .ok).2,
      0 ≤ e.available_quantity :=
  inventory_quantities_invariant (create_product seededInit rGood .ok).2
    (Reachable.step_product rGood .ok Reachable.init)

end StockFlow
